import Mathlib

/-!
Verification development for a chat-bot file converter.

The development shallowly embeds the Python sources:
  - utils/file_validation.py        (validate_file_type, validate_file_size)
  - fileconvertbot/utils/temp_manager.py (cleanup_temp_files)
  - fileconvertbot/converters/image_to_pdf.py (convert_image_to_pdf)
  - converters/word_to_pdf.py       (convert_word_to_pdf)
  - converters/pdf_to_word.py       (convert_pdf_to_word)
  - fileconvertbot/bot.py           (handle_file_upload)

Pure data flow is embedded as Lean functions; filesystem effects are
embedded as explicit state passing over a map from path names to file
contents, with exceptions of third-party calls injected through an
explicit failure-point parameter. Path names are opaque identifiers and
are modelled as naturals where the text of the path does not matter.
-/

/-! ## String helpers modelling Python primitives -/

/-- Model of Python `str.lower` on a single character (ASCII case fold,
which is what the extension tables here exercise). -/
def lowerChar (c : Char) : Char :=
  if 'A' ≤ c ∧ c ≤ 'Z' then Char.ofNat (c.toNat + 32) else c

/-- Model of Python `str.lower`. -/
def toLowerS (s : String) : String :=
  String.mk (s.data.map lowerChar)

/-- Index of the last occurrence of `c` in `l`, or `-1` when absent; the
convention of Python `str.rfind` used by `os.path.splitext`. -/
def rfindIdx (c : Char) : List Char → Int
  | [] => -1
  | a :: rest =>
    let r := rfindIdx c rest
    if 0 ≤ r then r + 1
    else if a = c then 0 else -1

/-- Model of POSIX `os.path.splitext`: split at the last dot that comes
after the last path separator, unless every character of the basename
before that dot is itself a dot (so `.bashrc` has no extension). -/
def splitext (p : String) : String × String :=
  let chars := p.data
  let sepIndex := rfindIdx '/' chars
  let dotIndex := rfindIdx '.' chars
  if sepIndex < dotIndex then
    let d := dotIndex.toNat
    let lo := (sepIndex + 1).toNat
    if (List.range d).any (fun j => decide (lo ≤ j) && decide (chars.getD j '.' ≠ '.')) then
      (String.mk (chars.take d), String.mk (chars.drop d))
    else (p, "")
  else (p, "")

/-! ## utils/file_validation.py -/

/-- `validate_file_type(file_path, expected_extensions)`:
`_, ext = os.path.splitext(file_path); return ext.lower() in [e.lower() for e in expected_extensions]`.
The function reads nothing but the path string and the allow-list. -/
def validate_file_type (file_path : String) (expected_extensions : List String) : Bool :=
  let ext := (splitext file_path).2
  (expected_extensions.map toLowerS).contains (toLowerS ext)

/-- `validate_file_size(file_path, max_size_mb)`:
`size_mb = os.path.getsize(file_path) / (1024 * 1024); return size_mb <= max_size_mb`.
The byte count of the existing file is the `size_bytes` argument; the
true division is embedded as exact rational division, which agrees with
Python float division here for every size below 2^53 bytes (dividing by
the power of two 2^20 only shifts the exponent). -/
def validate_file_size (size_bytes : Nat) (max_size_mb : Nat) : Bool :=
  decide ((size_bytes : ℚ) / (1024 * 1024) ≤ (max_size_mb : ℚ))

/-! ## fileconvertbot/utils/temp_manager.py

`cleanup_temp_files` iterates over the given paths; for each it checks
`os.path.exists` and calls `os.remove` inside a `try` whose `except`
only logs. The filesystem is a list of existing paths; `raising p` says
whether the `os.remove` call on `p` would raise an `OSError`. -/

/-- One iteration of the loop body of `cleanup_temp_files` on path
`file_path`: if the path exists, attempt removal; a raising removal is
caught and leaves the filesystem unchanged. -/
def removeStep (raising : Nat → Bool) (fs : List Nat) (file_path : Nat) : List Nat :=
  if file_path ∈ fs then
    if raising file_path then fs
    else fs.filter (fun q => decide (q ≠ file_path))
  else fs

/-- `cleanup_temp_files(file_paths)` over filesystem `fs`. -/
def cleanup_temp_files (raising : Nat → Bool) (fs : List Nat) (file_paths : List Nat) : List Nat :=
  file_paths.foldl (removeStep raising) fs

theorem removeStep_not_mem (raising : Nat → Bool) (fs : List Nat) (p q : Nat)
    (h : q ∉ fs) : q ∉ removeStep raising fs p := by
  unfold removeStep
  split
  · split
    · exact h
    · intro hmem
      exact h (List.mem_filter.mp hmem).1
  · exact h

theorem cleanup_not_mem (raising : Nat → Bool) (file_paths : List Nat) :
    ∀ fs q, q ∉ fs → q ∉ cleanup_temp_files raising fs file_paths := by
  induction file_paths with
  | nil => intro fs q h; simpa [cleanup_temp_files] using h
  | cons a rest ih =>
    intro fs q h
    have h2 : q ∉ removeStep raising fs a := removeStep_not_mem raising fs a q h
    simpa [cleanup_temp_files, List.foldl_cons] using ih (removeStep raising fs a) q h2

theorem cleanup_removes (raising : Nat → Bool) (file_paths : List Nat) :
    ∀ fs q, q ∈ file_paths → raising q = false →
      q ∉ cleanup_temp_files raising fs file_paths := by
  induction file_paths with
  | nil => intro fs q h _; exact absurd h (List.not_mem_nil q)
  | cons a rest ih =>
    intro fs q hq hr
    rcases List.mem_cons.mp hq with heq | hmem
    · subst heq
      by_cases hin : q ∈ rest
      · simpa [cleanup_temp_files, List.foldl_cons] using
          ih (removeStep raising fs q) q hin hr
      · have h2 : q ∉ removeStep raising fs q := by
          unfold removeStep
          split
          · rw [hr]
            simp only [if_false, Bool.false_eq_true]
            intro hmem2
            exact absurd rfl (of_decide_eq_true (List.mem_filter.mp hmem2).2)
          · assumption
        simpa [cleanup_temp_files, List.foldl_cons] using
          cleanup_not_mem raising rest (removeStep raising fs q) q h2
    · simpa [cleanup_temp_files, List.foldl_cons] using
        ih (removeStep raising fs a) q hmem hr

/-! ## Claim theorems for the validator and the cleanup loop -/

/-- C5: for every path string and allow-list, `validate_file_type` returns
true iff the case-folded extension of the path (as `os.path.splitext`
computes it) is among the case-folded allow-list entries; the function is
a pure predicate of the path string and the allow-list, taking no file
content at all. -/
theorem validate_file_type_iff_lower_suffix_mem (p : String) (exts : List String) :
    validate_file_type p exts = true
      ↔ ∃ e ∈ exts, toLowerS e = toLowerS (splitext p).2 := by
  simp [validate_file_type, List.contains_iff_exists_mem_beq, List.mem_map, eq_comm]

/-- C6: for every existing file of `s` bytes, `validate_file_size s m`
returns true iff `s` is at most `m` megabytes, i.e. iff `s ≤ m * 1024 * 1024`;
in particular a file of exactly `m * 1024 * 1024` bytes passes and any
larger file fails. -/
theorem validate_file_size_iff_le_bytes (s m : Nat) :
    validate_file_size s m = true ↔ s ≤ m * (1024 * 1024) := by
  simp only [validate_file_size, decide_eq_true_eq]
  rw [div_le_iff₀ (by norm_num : (0 : ℚ) < 1024 * 1024)]
  exact_mod_cast Iff.rfl

/-- C8: `cleanup_temp_files` attempts every listed path in order and no
missing file or raising deletion stops it: every listed path whose
removal does not raise is absent from the resulting filesystem, whatever
the other paths do, and processing always continues past any path `p`
into the remainder of the list. -/
theorem cleanup_temp_files_best_effort (raising : Nat → Bool) (fs : List Nat)
    (file_paths : List Nat) :
    (∀ q ∈ file_paths, raising q = false → q ∉ cleanup_temp_files raising fs file_paths)
    ∧ (∀ l1 p l2, file_paths = l1 ++ p :: l2 →
        cleanup_temp_files raising fs file_paths
          = cleanup_temp_files raising
              (removeStep raising (cleanup_temp_files raising fs l1) p) l2) := by
  constructor
  · intro q hq hr
    exact cleanup_removes raising file_paths fs q hq hr
  · intro l1 p l2 hsplit
    subst hsplit
    simp [cleanup_temp_files, List.foldl_append, List.foldl_cons]

/-- Witness for C8 at a concrete run: filesystem `[5, 7, 9]`, removal of
path `5` raises, path `3` is missing; path `7` is still deleted. -/
theorem cleanup_temp_files_best_effort_witness :
    7 ∉ cleanup_temp_files (fun p => decide (p = 5)) [5, 7, 9] [5, 3, 7] :=
  (cleanup_temp_files_best_effort (fun p => decide (p = 5)) [5, 7, 9] [5, 3, 7]).1
    7 (by decide) (by decide)

/-! ## fileconvertbot/converters/image_to_pdf.py — data flow

The image library and the PDF encoder are opaque third parties; they are
embedded as the fields of `ImageLib`. The body of
`convert_image_to_pdf` opens the image, rebinds `img` to an RGB
conversion when the mode is `RGBA`, `LA` or `P`, and then writes
`img2pdf.convert(image_file)` where `image_file` is the original input
file reopened for reading — the data flow below reproduces that
verbatim. -/

/-- A decoded image: a color mode string and pixel data. -/
structure PILImage where
  mode : String
  pixels : List Nat
deriving DecidableEq

/-- Opaque collaborators of `convert_image_to_pdf`: image decoding, RGB
conversion, image re-encoding to bytes, and the img2pdf byte encoder. -/
structure ImageLib where
  decode : List Nat → PILImage
  convertRGB : PILImage → PILImage
  encode : PILImage → List Nat
  img2pdf : List Nat → List Nat

/-- The bytes `convert_image_to_pdf` writes into the output PDF file,
as a function of the input file's bytes. -/
def convert_image_to_pdf_bytes (lib : ImageLib) (inputBytes : List Nat) : List Nat :=
  let img := lib.decode inputBytes
  let img := if img.mode = "RGBA" ∨ img.mode = "LA" ∨ img.mode = "P"
             then lib.convertRGB img else img
  let _ := img
  lib.img2pdf inputBytes

/-- A concrete instantiation of the opaque image library, rich enough to
distinguish an image from its RGB re-encoding: a file is a mode tag
followed by pixel bytes, and the PDF encoder prefixes a header. -/
def toyLib : ImageLib where
  decode bytes :=
    match bytes with
    | [] => ⟨"RGB", []⟩
    | t :: px =>
      ⟨if t = 1 then "RGBA" else if t = 2 then "LA" else if t = 3 then "P" else "RGB", px⟩
  convertRGB img := ⟨"RGB", img.pixels⟩
  encode img :=
    (if img.mode = "RGBA" then 1 else if img.mode = "LA" then 2
     else if img.mode = "P" then 3 else 0) :: img.pixels
  img2pdf bytes := 37 :: 80 :: 68 :: 70 :: bytes

/-! ## converters/pdf_to_word.py — paragraph sequence

Page text is a character list; `splitLines` models Python
`text.split('\n')` and `stripChars` models `str.strip()`. -/

/-- Python whitespace for `str.strip()` (ASCII range). -/
def isSpaceChar (c : Char) : Bool :=
  c = ' ' ∨ c = '\t' ∨ c = '\n' ∨ c = '\r' ∨ c = '\x0b' ∨ c = '\x0c'

/-- Model of Python `str.strip()`. -/
def stripChars (s : List Char) : List Char :=
  ((s.dropWhile isSpaceChar).reverse.dropWhile isSpaceChar).reverse

/-- Model of Python `text.split('\n')`: always at least one piece, one
extra empty piece per trailing newline. -/
def splitLines : List Char → List (List Char)
  | [] => [[]]
  | c :: rest =>
    let r := splitLines rest
    if c = '\n' then [] :: r
    else
      match r with
      | [] => [[c]]
      | h :: t => (c :: h) :: t

/-- The paragraphs `convert_pdf_to_word` appends while processing the
page with extracted text `text` at index `page_num` of `num_pages`
pages: each non-blank line is appended stripped, and after any line
equal to the final element of the split (Python `paragraphs[-1]`) an
empty paragraph is appended when this is not the last page. -/
def page_paragraphs (num_pages page_num : Nat) (text : List Char) : List (List Char) :=
  if stripChars text = [] then []
  else
    let paragraphs := splitLines text
    paragraphs.foldl
      (fun acc paragraph_text =>
        let acc1 := if stripChars paragraph_text = [] then acc
                    else acc ++ [stripChars paragraph_text]
        if paragraph_text = paragraphs.getLastD [] ∧ page_num < num_pages - 1
        then acc1 ++ [[]] else acc1)
      []

/-- The full paragraph sequence of the docx `convert_pdf_to_word`
builds, as a function of the extracted text of each page. -/
def convert_pdf_to_word_paragraphs (pages : List (List Char)) : List (List Char) :=
  (pages.enum.map (fun pr => page_paragraphs pages.length pr.1 pr.2)).flatten

/-! ## converters/word_to_pdf.py — the PDF flow -/

/-- A ReportLab flowable as used by `convert_word_to_pdf`: a Normal-style
text paragraph or the fixed `Spacer(1, 0.2 * inch)`. -/
inductive Flowable where
  | text (s : String)
  | spacer
deriving DecidableEq

/-- The `story` list built by `convert_word_to_pdf` from the text of the
input document's paragraphs: each paragraph with non-whitespace text
appends a text flowable followed by one spacer; others append nothing. -/
def convert_word_to_pdf_story (paragraphs : List String) : List Flowable :=
  paragraphs.foldl
    (fun story p =>
      if stripChars p.data = [] then story
      else story ++ [Flowable.text p, Flowable.spacer])
    []

/-! ## Claim theorems for the converters' data flow -/

/-- C1: refuted on the code. For every image library the bytes encoded
into the PDF are `img2pdf` applied to the original file's bytes — the
`img.convert('RGB')` result is rebound inside the `with` block and never
used afterwards. At the concrete RGBA image file `[1, 9, 9]` of the
`toyLib` instantiation, the written bytes are the PDF encoding of the
original RGBA bytes and differ from the PDF encoding of the image
re-encoded after RGB conversion, contrary to the claim. -/
theorem convert_image_to_pdf_encodes_original_bytes :
    (∀ lib b, convert_image_to_pdf_bytes lib b = lib.img2pdf b)
      ∧ (toyLib.decode [1, 9, 9]).mode = "RGBA"
      ∧ convert_image_to_pdf_bytes toyLib [1, 9, 9] = toyLib.img2pdf [1, 9, 9]
      ∧ toyLib.img2pdf [1, 9, 9]
          ≠ toyLib.img2pdf (toyLib.encode (toyLib.convertRGB (toyLib.decode [1, 9, 9]))) := by
  exact ⟨fun lib b => rfl, rfl, rfl, by decide⟩

/-- C2: refuted on the code. The separator test
`paragraph_text == paragraphs[-1]` compares line values, so on a 2-page
PDF whose first page's text is `"a\na"` (its last line value `"a"`
occurs twice) an empty paragraph is emitted after each occurrence: the
paragraph sequence is `[a, blank, a, blank, b]`, not the claimed
`[a, a, blank, b]` with exactly one separator after the page. -/
theorem convert_pdf_to_word_duplicate_last_line :
    convert_pdf_to_word_paragraphs [['a', '\n', 'a'], ['b']]
        = [['a'], [], ['a'], [], ['b']]
      ∧ convert_pdf_to_word_paragraphs [['a', '\n', 'a'], ['b']]
        ≠ [['a'], ['a'], [], ['b']] := by
  exact ⟨by decide, by decide⟩

theorem story_foldl_general (l : List String) :
    ∀ acc, l.foldl
        (fun story p =>
          if stripChars p.data = [] then story
          else story ++ [Flowable.text p, Flowable.spacer]) acc
      = acc ++ ((l.filter (fun p => decide (stripChars p.data ≠ []))).map
          (fun p => [Flowable.text p, Flowable.spacer])).flatten := by
  induction l with
  | nil => simp
  | cons a rest ih =>
    intro acc
    by_cases h : stripChars a.data = []
    · simp [h, List.filter_cons, ih]
    · simp [h, List.filter_cons, ih, List.append_assoc]

/-- C4: the `story` flow built by `convert_word_to_pdf` is exactly the
concatenation, over the paragraphs whose text has non-whitespace
content, of one text block followed by one spacer; paragraphs with
empty or whitespace-only text contribute neither a text block nor
spacing. -/
theorem convert_word_to_pdf_story_characterization (paragraphs : List String) :
    convert_word_to_pdf_story paragraphs
      = ((paragraphs.filter (fun p => decide (stripChars p.data ≠ []))).map
          (fun p => [Flowable.text p, Flowable.spacer])).flatten := by
  simpa [convert_word_to_pdf_story] using story_foldl_general paragraphs []

/-! ## Converters over the filesystem with injected exceptions

`FS` maps a path name to the content of the file there, or `none` when
no file exists. Each converter body is a straight-line sequence of
fallible third-party calls inside one `try`; `ConvFail` names the call
at which the injected exception is raised. The `except` handler of
every converter is `exceptCleanup`: it removes the output path when the
local `output_path` was already bound and the path exists, then the
function returns `None`. -/

/-- A filesystem: path names (opaque, so naturals) to file contents. -/
def FS : Type := Nat → Option (List Nat)

/-- Write (create or truncate-and-write) content `c` at path `p`. -/
def fsWrite (fs : FS) (p : Nat) (c : List Nat) : FS :=
  fun q => if q = p then some c else fs q

/-- `os.remove p`. -/
def fsRemove (fs : FS) (p : Nat) : FS :=
  fun q => if q = p then none else fs q

/-- `os.path.exists p`. -/
def fsExists (fs : FS) (p : Nat) : Bool :=
  (fs p).isSome

/-- The shared `except` block:
`if 'output_path' in locals() and os.path.exists(output_path): os.remove(output_path)`. -/
def exceptCleanup (outputDefined : Bool) (output_path : Nat) (fs : FS) : FS :=
  if outputDefined && fsExists fs output_path then fsRemove fs output_path else fs

/-- The point of the converter body at which the injected exception is
raised, or `ok` for an exception-free run. -/
inductive ConvFail where
  | ok
  | atStep1
  | atStep2
  | atStep3
deriving DecidableEq

/-- `convert_image_to_pdf(image_path)` over filesystem `fs`, returning
the Python return value and the final filesystem. Step 1 is
`Image.open`/`img.convert` (before `output_path` is bound), step 2 is
`tempfile.NamedTemporaryFile` (raising before `output_path` is bound),
step 3 is the write phase `open(output_path,'wb')` /
`open(image_path,'rb')` / `img2pdf.convert` / `write` (after the temp
file exists). `pdfBytes` is the encoder's output on the input bytes. -/
def convert_image_to_pdf_run (fs : FS) (image_path output_path : Nat) (pdfBytes : List Nat)
    (e : ConvFail) : Option Nat × FS :=
  match e with
  | ConvFail.atStep1 => (none, exceptCleanup false output_path fs)
  | ConvFail.atStep2 => (none, exceptCleanup false output_path fs)
  | ConvFail.atStep3 =>
      (none, exceptCleanup true output_path (fsWrite fs output_path []))
  | ConvFail.ok => (some output_path, fsWrite (fsWrite fs output_path []) output_path pdfBytes)

/-- `convert_word_to_pdf(word_path)` over filesystem `fs`. Step 1 is
`Document(word_path)`, step 2 is `tempfile.NamedTemporaryFile`, step 3
is the ReportLab `build` rendering into the already-created temp file.
`pdfBytes` is the rendered PDF content. -/
def convert_word_to_pdf_run (fs : FS) (word_path output_path : Nat) (pdfBytes : List Nat)
    (e : ConvFail) : Option Nat × FS :=
  match e with
  | ConvFail.atStep1 => (none, exceptCleanup false output_path fs)
  | ConvFail.atStep2 => (none, exceptCleanup false output_path fs)
  | ConvFail.atStep3 =>
      (none, exceptCleanup true output_path (fsWrite fs output_path []))
  | ConvFail.ok => (some output_path, fsWrite (fsWrite fs output_path []) output_path pdfBytes)

/-- `convert_pdf_to_word(pdf_path)` over filesystem `fs`. Here the temp
file is created first: step 1 is `tempfile.NamedTemporaryFile` (before
`output_path` is bound), step 2 is the `open(pdf_path,'rb')` /
`PdfReader` / document building phase, step 3 is `doc.save`.
`docxBytes` is the saved docx content. -/
def convert_pdf_to_word_run (fs : FS) (pdf_path output_path : Nat) (docxBytes : List Nat)
    (e : ConvFail) : Option Nat × FS :=
  match e with
  | ConvFail.atStep1 => (none, exceptCleanup false output_path fs)
  | ConvFail.atStep2 =>
      (none, exceptCleanup true output_path (fsWrite fs output_path []))
  | ConvFail.atStep3 =>
      (none, exceptCleanup true output_path (fsWrite fs output_path []))
  | ConvFail.ok => (some output_path, fsWrite (fsWrite fs output_path []) output_path docxBytes)

/-- C7: whenever any of the three converters hits an internal exception
at any of its fallible calls, it returns `None` and the freshly
allocated output temp path is absent from the resulting filesystem — no
partial output file remains after the call. The hypothesis `hfresh`
records that the `NamedTemporaryFile` path is new. -/
theorem converters_exception_no_partial_output (fs : FS) (inp outp : Nat) (bts : List Nat)
    (e : ConvFail) (he : e ≠ ConvFail.ok) (hfresh : fs outp = none) :
    ((convert_image_to_pdf_run fs inp outp bts e).1 = none
      ∧ (convert_image_to_pdf_run fs inp outp bts e).2 outp = none)
    ∧ ((convert_word_to_pdf_run fs inp outp bts e).1 = none
      ∧ (convert_word_to_pdf_run fs inp outp bts e).2 outp = none)
    ∧ ((convert_pdf_to_word_run fs inp outp bts e).1 = none
      ∧ (convert_pdf_to_word_run fs inp outp bts e).2 outp = none) := by
  cases e with
  | ok => exact absurd rfl he
  | atStep1 =>
      simp [convert_image_to_pdf_run, convert_word_to_pdf_run, convert_pdf_to_word_run,
        exceptCleanup, fsWrite, fsRemove, fsExists, hfresh]
  | atStep2 =>
      simp [convert_image_to_pdf_run, convert_word_to_pdf_run, convert_pdf_to_word_run,
        exceptCleanup, fsWrite, fsRemove, fsExists, hfresh]
  | atStep3 =>
      simp [convert_image_to_pdf_run, convert_word_to_pdf_run, convert_pdf_to_word_run,
        exceptCleanup, fsWrite, fsRemove, fsExists, hfresh]

/-- Witness for C7: input at path 0, fresh output path 1, exception in
the write/render phase. -/
theorem converters_exception_no_partial_output_witness :
    ((convert_image_to_pdf_run (fun _ => none) 0 1 [2] ConvFail.atStep3).1 = none
      ∧ (convert_image_to_pdf_run (fun _ => none) 0 1 [2] ConvFail.atStep3).2 1 = none)
    ∧ ((convert_word_to_pdf_run (fun _ => none) 0 1 [2] ConvFail.atStep3).1 = none
      ∧ (convert_word_to_pdf_run (fun _ => none) 0 1 [2] ConvFail.atStep3).2 1 = none)
    ∧ ((convert_pdf_to_word_run (fun _ => none) 0 1 [2] ConvFail.atStep3).1 = none
      ∧ (convert_pdf_to_word_run (fun _ => none) 0 1 [2] ConvFail.atStep3).2 1 = none) :=
  converters_exception_no_partial_output (fun _ => none) 0 1 [2] ConvFail.atStep3
    (by decide) rfl

/-- C10: every converter leaves the input file unchanged on success and
on every exception path: the content at the input path in the final
filesystem is its initial content. The hypothesis records that the
freshly allocated output temp path is distinct from the input path. -/
theorem converters_preserve_input (fs : FS) (inp outp : Nat) (bts : List Nat)
    (e : ConvFail) (hne : outp ≠ inp) :
    ((convert_image_to_pdf_run fs inp outp bts e).2 inp = fs inp)
    ∧ ((convert_word_to_pdf_run fs inp outp bts e).2 inp = fs inp)
    ∧ ((convert_pdf_to_word_run fs inp outp bts e).2 inp = fs inp) := by
  have hne2 : ¬ (inp = outp) := fun h => hne h.symm
  cases e with
  | ok =>
      simp [convert_image_to_pdf_run, convert_word_to_pdf_run, convert_pdf_to_word_run,
        fsWrite, hne2]
  | atStep1 =>
      simp [convert_image_to_pdf_run, convert_word_to_pdf_run, convert_pdf_to_word_run,
        exceptCleanup, fsWrite, fsRemove, fsExists, hne2]
  | atStep2 =>
      simp [convert_image_to_pdf_run, convert_word_to_pdf_run, convert_pdf_to_word_run,
        exceptCleanup, fsWrite, fsRemove, fsExists, hne2]
  | atStep3 =>
      simp [convert_image_to_pdf_run, convert_word_to_pdf_run, convert_pdf_to_word_run,
        exceptCleanup, fsWrite, fsRemove, fsExists, hne2]

/-- Witness for C10: input file with content `[9]` at path 0, output at
path 1, exception-free run. -/
theorem converters_preserve_input_witness :
    ((convert_image_to_pdf_run (fun q => if q = 0 then some [9] else none) 0 1 [2]
        ConvFail.ok).2 0 = some [9])
    ∧ ((convert_word_to_pdf_run (fun q => if q = 0 then some [9] else none) 0 1 [2]
        ConvFail.ok).2 0 = some [9])
    ∧ ((convert_pdf_to_word_run (fun q => if q = 0 then some [9] else none) 0 1 [2]
        ConvFail.ok).2 0 = some [9]) :=
  converters_preserve_input (fun q => if q = 0 then some [9] else none) 0 1 [2]
    ConvFail.ok (by decide)

/-! ## fileconvertbot/bot.py — handle_file_upload

The selection table `user_selections` is an association list from user
id to the chosen conversion kind; `del user_selections[user_id]`
removes the key. Attachment inspection, the extension allow-list check,
the download `try`, the 20 MB size check and the dispatch on the
converter's outcome follow the source's order; the chat replies are
recorded as an abstract list. Telegram photos carry no file name and
get extension `.jpg` as in the source. -/

/-- What the incoming message carries. -/
inductive Attachment where
  | noFile
  | document (file_name : String)
  | photo
deriving DecidableEq

/-- Result of the dispatched converter call: a produced-and-existing
output path, a `None`/missing-output return, or a raised exception
caught by the inner `except`. -/
inductive ConvOutcome where
  | ok
  | failed
  | raised
deriving DecidableEq

/-- The handler's return value: a conversation state or
`ConversationHandler.END`. -/
inductive RetState where
  | start
  | waiting_file
  | conv_end
deriving DecidableEq

/-- The replies `handle_file_upload` sends, abstracted. -/
inductive Reply where
  | selectFirst
  | noFileFound
  | invalidFormat (expected : List String) (received : String)
  | sizeExceeded
  | processing
  | sentDocument
  | conversionFailed
  | downloadFailed
  | offerRestart
deriving DecidableEq

/-- The `expected_extensions` dict of `handle_file_upload`. -/
def expected_extensions (conversion_type : String) : List String :=
  if conversion_type = "image_to_pdf" then [".jpg", ".jpeg", ".png"]
  else if conversion_type = "word_to_pdf" then [".docx"]
  else if conversion_type = "pdf_to_word" then [".pdf"]
  else []

/-- Observable outcome of one `handle_file_upload` call: replies sent,
value returned, and the selection table afterwards. -/
structure UploadResult where
  replies : List Reply
  ret : RetState
  sels : List (Nat × String)
deriving DecidableEq

/-- `handle_file_upload` of bot.py. `downloadOk` stands for the
download phase (`get_file`/`download_to_memory`) completing without the
outer `except` firing; `outcome` is the converter dispatch's result. -/
def handle_file_upload (sels : List (Nat × String)) (user_id : Nat)
    (attach : Attachment) (file_size : Nat) (downloadOk : Bool)
    (outcome : ConvOutcome) : UploadResult :=
  match sels.lookup user_id with
  | none => ⟨[Reply.selectFirst], RetState.conv_end, sels⟩
  | some conversion_type =>
    match attach with
    | Attachment.noFile => ⟨[Reply.noFileFound], RetState.waiting_file, sels⟩
    | _ =>
      let file_ext :=
        match attach with
        | Attachment.document name => toLowerS (splitext name).2
        | _ => ".jpg"
      if file_ext ∈ expected_extensions conversion_type then
        if downloadOk then
          if file_size > 20 * 1024 * 1024 then
            ⟨[Reply.sizeExceeded], RetState.waiting_file, sels⟩
          else
            match outcome with
            | ConvOutcome.ok =>
                ⟨[Reply.processing, Reply.sentDocument, Reply.offerRestart],
                  RetState.conv_end,
                  sels.filter (fun pr => decide (pr.1 ≠ user_id))⟩
            | ConvOutcome.failed =>
                ⟨[Reply.processing, Reply.conversionFailed], RetState.conv_end, sels⟩
            | ConvOutcome.raised =>
                ⟨[Reply.processing, Reply.conversionFailed], RetState.conv_end, sels⟩
        else ⟨[Reply.downloadFailed], RetState.conv_end, sels⟩
      else
        ⟨[Reply.invalidFormat (expected_extensions conversion_type) file_ext],
          RetState.waiting_file, sels⟩

/-! ## Claim theorems for handle_file_upload -/

/-- C3: refuted on the code. A conversion attempt that reaches the
converter and fails leaves the user's pending-selection entry in the
table: at the concrete run (user 1, selection `pdf_to_word`, matching
`a.pdf` upload, failing converter) the resulting table still holds the
entry, so the claim that the entry is removed on failure as on success
is false. -/
theorem handle_file_upload_failure_keeps_selection :
    (handle_file_upload [(1, "pdf_to_word")] 1 (Attachment.document "a.pdf") 100 true
        ConvOutcome.failed).sels = [(1, "pdf_to_word")]
      ∧ (handle_file_upload [(1, "pdf_to_word")] 1 (Attachment.document "a.pdf") 100 true
        ConvOutcome.failed).ret = RetState.conv_end := by
  exact ⟨by decide, by decide⟩

/-- C3 (amended): after a conversion attempt completes in
`handle_file_upload`, the pending-selection entry is removed exactly on
success: `del user_selections[user_id]` runs only in the success
branch, while on a failed or raising converter the table is returned
unchanged. -/
theorem handle_file_upload_selection_removed_iff_success
    (sels : List (Nat × String)) (uid : Nat) (name : String) (size : Nat)
    (oc : ConvOutcome) (kind : String)
    (hsel : sels.lookup uid = some kind)
    (hext : toLowerS (splitext name).2 ∈ expected_extensions kind)
    (hsize : ¬ size > 20 * 1024 * 1024) :
    (oc = ConvOutcome.ok →
      (handle_file_upload sels uid (Attachment.document name) size true oc).sels
        = sels.filter (fun pr => decide (pr.1 ≠ uid)))
    ∧ (oc ≠ ConvOutcome.ok →
      (handle_file_upload sels uid (Attachment.document name) size true oc).sels = sels) := by
  constructor
  · intro hoc
    subst hoc
    simp [handle_file_upload, hsel, hext, hsize]
  · intro hoc
    cases oc with
    | ok => exact absurd rfl hoc
    | failed => simp [handle_file_upload, hsel, hext, hsize]
    | raised => simp [handle_file_upload, hsel, hext, hsize]

/-- Witness for the amended C3: the successful run of the same concrete
session removes the entry. -/
theorem handle_file_upload_selection_removed_iff_success_witness :
    (handle_file_upload [(1, "pdf_to_word")] 1 (Attachment.document "a.pdf") 100 true
        ConvOutcome.ok).sels
      = List.filter (fun pr => decide (pr.1 ≠ 1)) [(1, "pdf_to_word")] :=
  (handle_file_upload_selection_removed_iff_success [(1, "pdf_to_word")] 1 "a.pdf" 100
      ConvOutcome.ok "pdf_to_word" (by decide) (by decide) (by decide)).1 rfl

/-- C9: when a file arrives in `WAITING_FILE` whose lower-cased
extension is not in the allow-list for the user's recorded conversion
kind, the handler replies with the expected-vs-received extensions
message, returns `WAITING_FILE`, and the selection table is returned
unchanged. -/
theorem handle_file_upload_extension_mismatch
    (sels : List (Nat × String)) (uid : Nat) (name : String) (size : Nat)
    (dOk : Bool) (oc : ConvOutcome) (kind : String)
    (hsel : sels.lookup uid = some kind)
    (hext : toLowerS (splitext name).2 ∉ expected_extensions kind) :
    handle_file_upload sels uid (Attachment.document name) size dOk oc
      = ⟨[Reply.invalidFormat (expected_extensions kind) (toLowerS (splitext name).2)],
          RetState.waiting_file, sels⟩ := by
  simp [handle_file_upload, hsel, hext]

/-- Witness for C9: user 1 selected `word_to_pdf` and uploads `x.png`;
the handler reports the `.docx` allow-list versus `.png`, stays in
`WAITING_FILE`, and keeps the selection. -/
theorem handle_file_upload_extension_mismatch_witness :
    handle_file_upload [(1, "word_to_pdf")] 1 (Attachment.document "x.png") 100 true
        ConvOutcome.ok
      = ⟨[Reply.invalidFormat (expected_extensions "word_to_pdf")
            (toLowerS (splitext "x.png").2)],
          RetState.waiting_file, [(1, "word_to_pdf")]⟩ :=
  handle_file_upload_extension_mismatch [(1, "word_to_pdf")] 1 "x.png" 100 true
    ConvOutcome.ok "word_to_pdf" (by decide) (by decide)
